import Mathlib

/-!
Verification of the GPU telemetry collection subsystem of evanOS
(src/core/gpu_monitor.cpp, src/include/core/gpu_monitor.h).

The embedding models the observable behaviour of the NVML library and of
the host's dynamic loader as an explicit environment `NVMLEnv`: whether the
library loads, which of the eleven entry points resolve, and the return
code and output value of every telemetry call (per device index where the
C function takes one).  Backend and manager objects become explicit state
records; the C++ member functions become Lean functions from environment
and state to result and updated state.

C unsigned integral types are modelled as `Nat` reduced modulo the type's
width exactly where the C code converts (`u32`, `u64` below); the `float`
fields of `GPUInfo` are modelled as `ℚ`, idealising IEEE rounding as exact
rational arithmetic (no claim below depends on float rounding).
-/

/-- Reduction of a `Nat` to the range of a C `unsigned int`
(32-bit on every platform this code targets). -/
def u32 (n : Nat) : Nat := n % 4294967296

/-- Reduction of a `Nat` to the range of a C `unsigned long long` (64-bit). -/
def u64 (n : Nat) : Nat := n % 18446744073709551616

/-- `GPUInfo` of include/core/gpu_monitor.h lines 11-23.  Memory sizes are
whole megabytes stored in `unsigned int`; the `float` fields are idealised
as rationals. -/
structure GPUInfo where
  name : String
  vendor : String
  driver_version : String
  memory_total : Nat
  memory_used : Nat
  memory_free : Nat
  utilization : ℚ
  temperature : ℚ
  power_usage : ℚ
  clock_core : ℚ
  clock_memory : ℚ
deriving Repr, DecidableEq

/-- The eleven NVML function pointers of `NVIDIA_GPUMonitor`
(gpu_monitor.h lines 74-84).  `true` stands for a non-null pointer.  The
same record doubles as the loaded library's export table in the
environment: a stored pointer is non-null exactly when `dlsym` resolved
the name. -/
structure NvmlSyms where
  nvmlInit : Bool
  nvmlShutdown : Bool
  nvmlDeviceGetCount : Bool
  nvmlDeviceGetHandleByIndex : Bool
  nvmlDeviceGetName : Bool
  nvmlDeviceGetMemoryInfo : Bool
  nvmlDeviceGetUtilizationRates : Bool
  nvmlDeviceGetTemperature : Bool
  nvmlDeviceGetPowerUsage : Bool
  nvmlDeviceGetClockInfo : Bool
  nvmlSystemGetDriverVersion : Bool
deriving Repr, DecidableEq

/-- The all-null table the `NVIDIA_GPUMonitor` constructor writes
(gpu_monitor.cpp lines 82-93). -/
def NvmlSyms.null : NvmlSyms :=
  ⟨false, false, false, false, false, false, false, false, false, false, false⟩

/-- The completeness check of gpu_monitor.cpp lines 146-151: every one of
the eleven pointers is non-null. -/
def NvmlSyms.allResolved (t : NvmlSyms) : Bool :=
  t.nvmlInit && t.nvmlShutdown && t.nvmlDeviceGetCount &&
  t.nvmlDeviceGetHandleByIndex && t.nvmlDeviceGetName &&
  t.nvmlDeviceGetMemoryInfo && t.nvmlDeviceGetUtilizationRates &&
  t.nvmlDeviceGetTemperature && t.nvmlDeviceGetPowerUsage &&
  t.nvmlDeviceGetClockInfo && t.nvmlSystemGetDriverVersion

/-- Behaviour of the dynamic loader and of the NVML library, as observed
through the calls gpu_monitor.cpp makes.  Every NVML call returns an `int`
status (0 is success, checked with `!= 0` in the source) and writes its
outputs through pointers; both are fields here, indexed by device index
where the C call takes one.  `clockRet`/`clockVal` take the clock domain
(0 core, 1 memory) first. -/
structure NVMLEnv where
  libLoads : Bool
  exports : NvmlSyms
  initRet : Nat
  countRet : Nat
  countVal : Nat
  handleRet : Nat → Nat
  nameRet : Nat → Nat
  nameVal : Nat → String
  driverRet : Nat
  driverVal : String
  memRet : Nat → Nat
  memTotal : Nat → Nat
  memFree : Nat → Nat
  memUsed : Nat → Nat
  utilRet : Nat → Nat
  utilGpu : Nat → Nat
  tempRet : Nat → Nat
  tempVal : Nat → Nat
  powerRet : Nat → Nat
  powerVal : Nat → Nat
  clockRet : Nat → Nat → Nat
  clockVal : Nat → Nat → Nat

/-- Member state of `NVIDIA_GPUMonitor` (gpu_monitor.h lines 59-87):
library handle (`true` = non-null), the eleven stored function pointers,
`is_initialized`, `device_count`. -/
structure NVIDIAState where
  nvml_lib : Bool
  syms : NvmlSyms
  is_initialized : Bool
  device_count : Nat
deriving Repr, DecidableEq

/-- The state the `NVIDIA_GPUMonitor` constructor establishes
(gpu_monitor.cpp lines 78-94): null handle, null pointers, not
initialized, zero devices. -/
def NVIDIAState.mk0 : NVIDIAState :=
  { nvml_lib := false, syms := NvmlSyms.null,
    is_initialized := false, device_count := 0 }

/-- `NVIDIA_GPUMonitor::initialize` (gpu_monitor.cpp lines 100-166).
Steps: load the library (on Windows two candidate paths are tried; a
single `libLoads` flag models whether the load sequence succeeds), store
the result of `dlsym` for each of the eleven names, fail if any pointer is
null, call `nvmlInit`, call `nvmlDeviceGetCount` (on its failure
`nvmlShutdown` is called — an external call with no member-state effect),
then set `device_count` and `is_initialized`.  Note the source returns
early on failure without clearing the stored pointers or releasing the
library handle. -/
def NVIDIA.init (env : NVMLEnv) (s : NVIDIAState) : Bool × NVIDIAState :=
  if !env.libLoads then (false, { s with nvml_lib := false })
  else
    let s1 := { s with nvml_lib := true, syms := env.exports }
    if !s1.syms.allResolved then (false, s1)
    else if env.initRet != 0 then (false, s1)
    else if env.countRet != 0 then (false, s1)
    else (true, { s1 with device_count := u32 env.countVal,
                          is_initialized := true })

/-- The per-device body of the sweep in `NVIDIA_GPUMonitor::getAllGPUInfo`
(gpu_monitor.cpp lines 261-344; `NVIDIA_GPUMonitor::getGPUInfo` lines
168-254 duplicates the same body at index 0).  `none` models `continue`:
handle, name, memory, utilization and temperature failures drop the
record; driver version, power and the two clock domains degrade to
"Unknown", 0.0 and 0.0. -/
def queryDevice (env : NVMLEnv) (i : Nat) : Option GPUInfo :=
  if env.handleRet i != 0 then none
  else if env.nameRet i != 0 then none
  else if env.memRet i != 0 then none
  else if env.utilRet i != 0 then none
  else if env.tempRet i != 0 then none
  else some
    { name := env.nameVal i
      vendor := "NVIDIA"
      driver_version := if env.driverRet != 0 then "Unknown" else env.driverVal
      memory_total := u32 (u64 (env.memTotal i) / (1024 * 1024))
      memory_used := u32 (u64 (env.memUsed i) / (1024 * 1024))
      memory_free := u32 (u64 (env.memFree i) / (1024 * 1024))
      utilization := (u32 (env.utilGpu i) : ℚ)
      temperature := (u32 (env.tempVal i) : ℚ)
      power_usage := if env.powerRet i != 0 then 0
                     else (u32 (env.powerVal i) : ℚ) / 1000
      clock_core := if env.clockRet 0 i != 0 then 0
                    else (u32 (env.clockVal 0 i) : ℚ)
      clock_memory := if env.clockRet 1 i != 0 then 0
                      else (u32 (env.clockVal 1 i) : ℚ) }

/-- `NVIDIA_GPUMonitor::getAllGPUInfo` (gpu_monitor.cpp lines 256-348):
guard on `is_initialized` and `device_count`, sweep indices
`0..device_count-1` pushing each successful record onto the caller's
list, return whether the (caller's) list is non-empty. -/
def NVIDIA.getAllGPUInfo (env : NVMLEnv) (s : NVIDIAState)
    (gpu_info_list : List GPUInfo) : Bool × List GPUInfo :=
  if !s.is_initialized || s.device_count == 0 then (false, gpu_info_list)
  else
    let l := gpu_info_list ++ (List.range s.device_count).filterMap (queryDevice env)
    (!l.isEmpty, l)

/-- `NVIDIA_GPUMonitor::getGPUInfo` (gpu_monitor.cpp lines 168-254): the
same guard, then the single-device query at index 0.  The C version
returns `bool` and writes into an out-parameter; its partial writes on
failure paths are not modelled (no claim concerns them), so the result is
the emitted record or `none`. -/
def NVIDIA.getGPUInfo (env : NVMLEnv) (s : NVIDIAState) : Option GPUInfo :=
  if !s.is_initialized || s.device_count == 0 then none
  else queryDevice env 0

/-- `NVIDIA_GPUMonitor::cleanup` (gpu_monitor.cpp lines 350-366): calls
`nvmlShutdown` when initialized and the pointer is non-null and `dlclose`s
a non-null handle (external effects), then nulls the handle and resets
`is_initialized` and `device_count`.  The stored function pointers are not
cleared by the source. -/
def NVIDIA.cleanup (s : NVIDIAState) : NVIDIAState :=
  { s with nvml_lib := false, is_initialized := false, device_count := 0 }

/-- `AMD_GPUMonitor` member state (gpu_monitor.h lines 91-104). -/
structure AMDState where
  is_initialized : Bool
deriving Repr, DecidableEq

/-- `AMD_GPUMonitor::initialize` (gpu_monitor.cpp lines 376-380): always
false, no state change. -/
def AMD.init : Bool := false

/-- `AMD_GPUMonitor::getAllGPUInfo` (gpu_monitor.cpp lines 386-388). -/
def AMD.getAllGPUInfo (gpu_info_list : List GPUInfo) : Bool × List GPUInfo :=
  (false, gpu_info_list)

/-- `Intel_GPUMonitor` member state (gpu_monitor.h lines 107-120). -/
structure IntelState where
  is_initialized : Bool
deriving Repr, DecidableEq

/-- `Intel_GPUMonitor::initialize` (gpu_monitor.cpp lines 402-406): always
false, no state change. -/
def Intel.init : Bool := false

/-- `Intel_GPUMonitor::getAllGPUInfo` (gpu_monitor.cpp lines 412-414). -/
def Intel.getAllGPUInfo (gpu_info_list : List GPUInfo) : Bool × List GPUInfo :=
  (false, gpu_info_list)

/-- One `IGPUMonitor*` held by the manager: the closed vendor variant set. -/
inductive Backend where
  | nvidia (s : NVIDIAState)
  | amd (s : AMDState)
  | intel (s : IntelState)
deriving Repr, DecidableEq

/-- Virtual dispatch of `getAllGPUInfo` over the vendor variants. -/
def Backend.getAllGPUInfo (env : NVMLEnv) (b : Backend)
    (l : List GPUInfo) : Bool × List GPUInfo :=
  match b with
  | .nvidia s => NVIDIA.getAllGPUInfo env s l
  | .amd _ => AMD.getAllGPUInfo l
  | .intel _ => Intel.getAllGPUInfo l

/-- Member state of `GPUMonitorManager` (gpu_monitor.h lines 140-142). -/
structure ManagerState where
  gpu_monitors : List Backend
  is_initialized : Bool
deriving Repr, DecidableEq

/-- The state the `GPUMonitorManager` constructor establishes
(gpu_monitor.cpp line 15). -/
def ManagerState.mk0 : ManagerState :=
  { gpu_monitors := [], is_initialized := false }

/-- `GPUMonitorManager::initialize` (gpu_monitor.cpp lines 22-47):
construct one fresh backend per vendor, keep each whose `initialize`
returned true, delete the others, set and return
`!gpu_monitors.empty()`.  The source appends to the existing
`gpu_monitors` vector without clearing it first. -/
def Manager.init (env : NVMLEnv) (s : ManagerState) : Bool × ManagerState :=
  let nv := NVIDIA.init env NVIDIAState.mk0
  let m1 := if nv.1 then s.gpu_monitors ++ [Backend.nvidia nv.2] else s.gpu_monitors
  let m2 := if AMD.init then m1 ++ [Backend.amd ⟨false⟩] else m1
  let m3 := if Intel.init then m2 ++ [Backend.intel ⟨false⟩] else m2
  (!m3.isEmpty, { gpu_monitors := m3, is_initialized := !m3.isEmpty })

/-- `GPUMonitorManager::getAllGPUInfo` (gpu_monitor.cpp lines 53-66): guard
on `is_initialized`; for each retained backend query into a fresh
temporary list and append it to the caller's list only when the backend
reported success; return whether the caller's list is non-empty. -/
def Manager.getAllGPUInfo (env : NVMLEnv) (s : ManagerState)
    (gpu_info_list : List GPUInfo) : Bool × List GPUInfo :=
  if !s.is_initialized then (false, gpu_info_list)
  else
    let l := s.gpu_monitors.foldl
      (fun acc m =>
        let r := Backend.getAllGPUInfo env m []
        if r.1 then acc ++ r.2 else acc)
      gpu_info_list
    (!l.isEmpty, l)

/-- `GPUMonitorManager::cleanup` (gpu_monitor.cpp lines 68-75): calls
`cleanup` on and deletes every retained backend, clears the vector, resets
the flag.  The manager's own state afterwards is always the constructor
state. -/
def Manager.cleanup (_s : ManagerState) : ManagerState :=
  { gpu_monitors := [], is_initialized := false }

/-- The five per-device calls whose failure drops the record in the sweep
of gpu_monitor.cpp lines 261-344: handle, name, memory, utilization,
temperature. -/
def coreOk (env : NVMLEnv) (i : Nat) : Bool :=
  env.handleRet i == 0 && env.nameRet i == 0 && env.memRet i == 0 &&
  env.utilRet i == 0 && env.tempRet i == 0

/-- The record the sweep builds for a device index whose five core calls
succeed (gpu_monitor.cpp lines 261-344). -/
def deviceRecord (env : NVMLEnv) (i : Nat) : GPUInfo :=
  { name := env.nameVal i
    vendor := "NVIDIA"
    driver_version := if env.driverRet != 0 then "Unknown" else env.driverVal
    memory_total := u32 (u64 (env.memTotal i) / (1024 * 1024))
    memory_used := u32 (u64 (env.memUsed i) / (1024 * 1024))
    memory_free := u32 (u64 (env.memFree i) / (1024 * 1024))
    utilization := (u32 (env.utilGpu i) : ℚ)
    temperature := (u32 (env.tempVal i) : ℚ)
    power_usage := if env.powerRet i != 0 then 0
                   else (u32 (env.powerVal i) : ℚ) / 1000
    clock_core := if env.clockRet 0 i != 0 then 0
                  else (u32 (env.clockVal 0 i) : ℚ)
    clock_memory := if env.clockRet 1 i != 0 then 0
                    else (u32 (env.clockVal 1 i) : ℚ) }

theorem queryDevice_eq (env : NVMLEnv) (i : Nat) :
    queryDevice env i =
      if coreOk env i then some (deviceRecord env i) else none := by
  unfold queryDevice coreOk deviceRecord
  by_cases h1 : env.handleRet i = 0 <;> by_cases h2 : env.nameRet i = 0 <;>
    by_cases h3 : env.memRet i = 0 <;> by_cases h4 : env.utilRet i = 0 <;>
    by_cases h5 : env.tempRet i = 0 <;>
    simp [h1, h2, h3, h4, h5]

theorem filterMap_ite (p : Nat → Bool) (g : Nat → GPUInfo) :
    ∀ l : List Nat,
      l.filterMap (fun i => if p i then some (g i) else none) =
        (l.filter p).map g := by
  intro l
  induction l with
  | nil => rfl
  | cons a t ih =>
    by_cases h : p a <;>
      simp [List.filterMap_cons, List.filter_cons, h, ih]

/-- The sweep of `NVIDIA.getAllGPUInfo` emits the record of exactly the
indices whose five core calls succeed, in ascending index order. -/
theorem sweep_eq (env : NVMLEnv) (n : Nat) :
    (List.range n).filterMap (queryDevice env) =
      ((List.range n).filter (fun i => coreOk env i)).map (deviceRecord env) := by
  have h : queryDevice env =
      fun i => if coreOk env i then some (deviceRecord env i) else none :=
    funext (queryDevice_eq env)
  rw [h, filterMap_ite]

theorem manager_fold_prefix (env : NVMLEnv) :
    ∀ (l : List Backend) (acc : List GPUInfo), ∃ t,
      l.foldl
        (fun acc m =>
          let r := Backend.getAllGPUInfo env m []
          if r.1 then acc ++ r.2 else acc)
        acc = acc ++ t := by
  intro l
  induction l with
  | nil => exact fun acc => ⟨[], by simp⟩
  | cons b t ih =>
    intro acc
    simp only [List.foldl_cons]
    by_cases h : (Backend.getAllGPUInfo env b []).1
    · obtain ⟨u, hu⟩ := ih (acc ++ (Backend.getAllGPUInfo env b []).2)
      exact ⟨(Backend.getAllGPUInfo env b []).2 ++ u, by simp [h, hu]⟩
    · obtain ⟨u, hu⟩ := ih acc
      exact ⟨u, by simp [h, hu]⟩

/-- The export table with every entry point present. -/
def symsAll : NvmlSyms :=
  ⟨true, true, true, true, true, true, true, true, true, true, true⟩

/-- An environment in which the library loads, all eleven entry points
resolve and every telemetry call succeeds on every device index: one
device, 1 GiB of memory, 125000 mW of power. -/
def envOK : NVMLEnv :=
  { libLoads := true
    exports := symsAll
    initRet := 0
    countRet := 0
    countVal := 1
    handleRet := fun _ => 0
    nameRet := fun _ => 0
    nameVal := fun _ => "GeForce RTX"
    driverRet := 0
    driverVal := "555.0"
    memRet := fun _ => 0
    memTotal := fun _ => 1073741824
    memFree := fun _ => 536870912
    memUsed := fun _ => 536870912
    utilRet := fun _ => 0
    utilGpu := fun _ => 50
    tempRet := fun _ => 0
    tempVal := fun _ => 60
    powerRet := fun _ => 0
    powerVal := fun _ => 125000
    clockRet := fun _ _ => 0
    clockVal := fun _ _ => 1800 }

/-- `envOK` except that `dlsym` fails on `nvmlSystemGetDriverVersion`:
ten of the eleven entry points resolve. -/
def envTen : NVMLEnv :=
  { envOK with exports := { symsAll with nvmlSystemGetDriverVersion := false } }

/-- `envOK` except that handle enumeration fails exactly at index 1. -/
def env3 : NVMLEnv :=
  { envOK with handleRet := fun i => if i == 1 then 1 else 0 }

/-- `envOK` except that handle enumeration fails at every index. -/
def envF : NVMLEnv :=
  { envOK with handleRet := fun _ => 1 }

/-- `envOK` except that the reported memory total is 2^52 bytes, whose
megabyte count 2^32 overflows the `unsigned int` field. -/
def env8 : NVMLEnv :=
  { envOK with memTotal := fun _ => 4503599627370496 }

/-- A successfully initialized backend state with one device. -/
def stI : NVIDIAState :=
  { nvml_lib := true, syms := symsAll, is_initialized := true, device_count := 1 }

/-- A successfully initialized backend state with three devices. -/
def st3 : NVIDIAState :=
  { nvml_lib := true, syms := symsAll, is_initialized := true, device_count := 3 }

/-- A concrete pre-existing record for frame-effect scenarios. -/
def gW : GPUInfo :=
  { name := "older entry", vendor := "NVIDIA", driver_version := "555.0",
    memory_total := 1024, memory_used := 512, memory_free := 512,
    utilization := 50, temperature := 60, power_usage := 125,
    clock_core := 1800, clock_memory := 1800 }

/-- Claim C1 (amended): if any of the eleven required NVML entry points
fails to resolve, a fresh backend's bind fails — `NVIDIA.init` returns
false and `is_initialized` stays false — and the partially resolved
function table, although its pointers remain stored in the object, is
never usable: `getGPUInfo` and `getAllGPUInfo` return failure without
invoking any entry point, their results independent of the library's
behaviour (quantified over every environment `env2`). -/
theorem resolve_atomic_unusable (env : NVMLEnv)
    (h : env.exports.allResolved = false) :
    (NVIDIA.init env NVIDIAState.mk0).1 = false ∧
    (NVIDIA.init env NVIDIAState.mk0).2.is_initialized = false ∧
    (∀ env2 lst, NVIDIA.getAllGPUInfo env2 (NVIDIA.init env NVIDIAState.mk0).2 lst
      = (false, lst)) ∧
    (∀ env2, NVIDIA.getGPUInfo env2 (NVIDIA.init env NVIDIAState.mk0).2 = none) := by
  cases hl : env.libLoads <;>
    simp [NVIDIA.init, NVIDIA.getAllGPUInfo, NVIDIA.getGPUInfo,
      NVIDIAState.mk0, hl, h]

/-- Claim C1, counterexample to the claim as stated: with ten of the
eleven entry points resolving (`nvmlSystemGetDriverVersion` missing),
`initialize` returns false, yet the partially resolved table IS retained
in the object — the ten resolved pointers (here `nvmlInit`) stay stored,
contradicting "no partial function table is retained". -/
theorem resolve_partial_table_retained :
    (NVIDIA.init envTen NVIDIAState.mk0).1 = false ∧
    (NVIDIA.init envTen NVIDIAState.mk0).2.syms.nvmlInit = true ∧
    (NVIDIA.init envTen NVIDIAState.mk0).2.syms.nvmlSystemGetDriverVersion = false :=
  ⟨rfl, rfl, rfl⟩

/-- Claim C1, witness: the amended theorem applied at the concrete
ten-of-eleven environment. -/
theorem resolve_atomic_unusable_witness :
    (NVIDIA.init envTen NVIDIAState.mk0).1 = false ∧
    NVIDIA.getGPUInfo envOK (NVIDIA.init envTen NVIDIAState.mk0).2 = none :=
  ⟨(resolve_atomic_unusable envTen rfl).1,
   (resolve_atomic_unusable envTen rfl).2.2.2 envOK⟩

/-- Claim C2 (confirmed): in the per-device sweep a record is emitted for
an index if and only if handle enumeration, name fetch, memory-info
fetch, utilization fetch and temperature fetch all succeed there; the
driver-version, power and per-domain clock fetches never prevent
emission, each substituting "Unknown", 0.0 W and 0.0 MHz respectively for
its own field only on failure. -/
theorem record_emission_and_degradation (env : NVMLEnv) (i : Nat) :
    ((queryDevice env i).isSome ↔
      (env.handleRet i = 0 ∧ env.nameRet i = 0 ∧ env.memRet i = 0 ∧
        env.utilRet i = 0 ∧ env.tempRet i = 0)) ∧
    ∀ g, queryDevice env i = some g →
      (env.driverRet ≠ 0 → g.driver_version = "Unknown") ∧
      (env.driverRet = 0 → g.driver_version = env.driverVal) ∧
      (env.powerRet i ≠ 0 → g.power_usage = 0) ∧
      (env.powerRet i = 0 → g.power_usage = (u32 (env.powerVal i) : ℚ) / 1000) ∧
      (env.clockRet 0 i ≠ 0 → g.clock_core = 0) ∧
      (env.clockRet 0 i = 0 → g.clock_core = (u32 (env.clockVal 0 i) : ℚ)) ∧
      (env.clockRet 1 i ≠ 0 → g.clock_memory = 0) ∧
      (env.clockRet 1 i = 0 → g.clock_memory = (u32 (env.clockVal 1 i) : ℚ)) := by
  constructor
  · rw [queryDevice_eq]
    by_cases h : coreOk env i = true
    · simp only [h, if_true, Option.isSome_some, true_iff]
      have h3 := h
      simp only [coreOk, Bool.and_eq_true, beq_iff_eq] at h3
      tauto
    · have h2 : ¬ (env.handleRet i = 0 ∧ env.nameRet i = 0 ∧ env.memRet i = 0 ∧
          env.utilRet i = 0 ∧ env.tempRet i = 0) := by
        intro hc
        exact h (by simp [coreOk, hc.1, hc.2.1, hc.2.2.1, hc.2.2.2.1, hc.2.2.2.2])
      simp [h, h2]
  · intro g hg
    rw [queryDevice_eq] at hg
    by_cases h : coreOk env i = true
    · rw [if_pos h] at hg
      obtain rfl := (Option.some.injEq _ _).mp hg
      refine ⟨?_, ?_, ?_, ?_, ?_, ?_, ?_, ?_⟩ <;>
        intro hc <;> simp [deviceRecord, hc]
    · rw [if_neg h] at hg
      exact absurd hg (by simp)

/-- Claim C3 (confirmed): for every device count and every pattern of
handle-enumeration failures (all other per-device queries succeeding),
the sweep of `getAllGPUInfo` appends the records of exactly the indices
whose handle enumeration succeeded, in ascending index order; the failing
indices are skipped without aborting the sweep. -/
theorem sweep_skips_failed_indices (env : NVMLEnv) (s : NVIDIAState)
    (lst : List GPUInfo) (hinit : s.is_initialized = true)
    (hok : ∀ i, env.nameRet i = 0 ∧ env.memRet i = 0 ∧
      env.utilRet i = 0 ∧ env.tempRet i = 0) :
    (NVIDIA.getAllGPUInfo env s lst).2 =
      lst ++ ((List.range s.device_count).filter
        (fun i => env.handleRet i == 0)).map (deviceRecord env) := by
  have hcore : ∀ i : Nat, coreOk env i = (env.handleRet i == 0) := by
    intro i
    obtain ⟨h1, h2, h3, h4⟩ := hok i
    simp [coreOk, h1, h2, h3, h4]
  have hfil : (List.range s.device_count).filter (fun i => coreOk env i)
      = (List.range s.device_count).filter (fun i => env.handleRet i == 0) :=
    List.filter_congr (fun i _ => hcore i)
  by_cases hc : s.device_count = 0
  · simp [NVIDIA.getAllGPUInfo, hinit, hc]
  · have hguard : (!s.is_initialized || s.device_count == 0) = false := by
      simp [hinit, hc]
    have hmain : NVIDIA.getAllGPUInfo env s lst =
        (!(lst ++ (List.range s.device_count).filterMap (queryDevice env)).isEmpty,
          lst ++ (List.range s.device_count).filterMap (queryDevice env)) := by
      unfold NVIDIA.getAllGPUInfo
      rw [hguard]
      rfl
    rw [hmain, sweep_eq, hfil]

/-- Claim C3, witness: with three devices and only index 1's handle
enumeration failing, exactly the records of indices 0 and 2 are returned,
in that order. -/
theorem sweep_skips_failed_indices_witness :
    (NVIDIA.getAllGPUInfo env3 st3 []).2 =
      [deviceRecord env3 0, deviceRecord env3 2] := by
  have h := sweep_skips_failed_indices env3 st3 [] rfl
    (fun i => ⟨rfl, rfl, rfl, rfl⟩)
  rw [h]
  rfl

/-- Claim C4 (amended): whenever `initialize` fails at any step after the
library was loaded (missing symbol, vendor-init failure or device-count
failure) it returns false, but it does NOT itself release what was
partially bound: the library handle remains held and the resolved
pointers remain stored, with `is_initialized` and `device_count` simply
left as they were; the release happens only through `cleanup` (which the
manager triggers by destroying a failed backend), after which the handle
is null and the flags are reset. -/
theorem init_failure_residual_state (env : NVMLEnv) (s : NVIDIAState)
    (hload : env.libLoads = true)
    (hfail : (NVIDIA.init env s).1 = false) :
    (NVIDIA.init env s).2.nvml_lib = true ∧
    (NVIDIA.init env s).2.syms = env.exports ∧
    (NVIDIA.init env s).2.is_initialized = s.is_initialized ∧
    (NVIDIA.init env s).2.device_count = s.device_count ∧
    (NVIDIA.cleanup (NVIDIA.init env s).2).nvml_lib = false ∧
    (NVIDIA.cleanup (NVIDIA.init env s).2).is_initialized = false ∧
    (NVIDIA.cleanup (NVIDIA.init env s).2).device_count = 0 := by
  by_cases h1 : env.exports.allResolved = true
  · by_cases h2 : env.initRet = 0
    · by_cases h3 : env.countRet = 0
      · exfalso
        simp [NVIDIA.init, hload, h1, h2, h3] at hfail
      · simp [NVIDIA.init, NVIDIA.cleanup, hload, h1, h2, h3]
    · simp [NVIDIA.init, NVIDIA.cleanup, hload, h1, h2]
  · simp [NVIDIA.init, NVIDIA.cleanup, hload, h1]

/-- Claim C4, counterexample to the claim as stated: a failed initialize
(library loaded, one symbol missing) returns false but leaves residual
state — the object is not back in the constructor state, and in
particular the library handle is still held, contradicting "releases
whatever was partially bound, leaving no residual state". -/
theorem init_failure_retains_library :
    (NVIDIA.init envTen NVIDIAState.mk0).1 = false ∧
    (NVIDIA.init envTen NVIDIAState.mk0).2 ≠ NVIDIAState.mk0 ∧
    (NVIDIA.init envTen NVIDIAState.mk0).2.nvml_lib = true :=
  ⟨rfl, by decide, rfl⟩

/-- Claim C4, witness: the amended theorem applied at the concrete
ten-of-eleven environment and the fresh constructor state. -/
theorem init_failure_residual_state_witness :
    (NVIDIA.init envTen NVIDIAState.mk0).2.nvml_lib = true ∧
    (NVIDIA.cleanup (NVIDIA.init envTen NVIDIAState.mk0).2).nvml_lib = false := by
  have h := init_failure_residual_state envTen NVIDIAState.mk0 rfl rfl
  exact ⟨h.1, h.2.2.2.2.1⟩

/-- Claim C5 (amended): when the backend is initialized with a non-zero
device count, `getAllGPUInfo` appends the successfully emitted records to
the caller's list in ascending device-index order, and its boolean result
is true exactly when the final list is non-empty; with an initially empty
caller list this means it reports failure exactly when zero records were
produced by the call. -/
theorem queryAll_result_semantics (env : NVMLEnv) (s : NVIDIAState)
    (lst : List GPUInfo) (hinit : s.is_initialized = true)
    (hc : s.device_count ≠ 0) :
    (NVIDIA.getAllGPUInfo env s lst).2 =
      lst ++ ((List.range s.device_count).filter
        (fun i => coreOk env i)).map (deviceRecord env) ∧
    ((NVIDIA.getAllGPUInfo env s lst).1 = true ↔
      (NVIDIA.getAllGPUInfo env s lst).2 ≠ []) ∧
    (lst = [] →
      ((NVIDIA.getAllGPUInfo env s lst).1 = false ↔
        ((List.range s.device_count).filter
          (fun i => coreOk env i)).map (deviceRecord env) = [])) := by
  have hguard : (!s.is_initialized || s.device_count == 0) = false := by
    simp [hinit, hc]
  have hmain : NVIDIA.getAllGPUInfo env s lst =
      (!(lst ++ (List.range s.device_count).filterMap (queryDevice env)).isEmpty,
        lst ++ (List.range s.device_count).filterMap (queryDevice env)) := by
    unfold NVIDIA.getAllGPUInfo
    rw [hguard]
    rfl
  refine ⟨?_, ?_, ?_⟩
  · rw [hmain, sweep_eq]
  · rw [hmain]
    simp [List.isEmpty_iff]
  · intro hl
    subst hl
    rw [hmain, sweep_eq]
    simp [List.isEmpty_iff]

/-- Claim C5, counterexample to the claim as stated: an initialized
backend whose every handle enumeration fails, called with a pre-populated
caller list, produces zero records during the call (the sweep emits
nothing) yet returns true — so "returns false exactly when zero records
were produced by the call" is false. -/
theorem queryAll_true_with_zero_emitted :
    NVIDIA.getAllGPUInfo envF stI [gW] = (true, [gW]) ∧
    (List.range stI.device_count).filterMap (queryDevice envF) = [] :=
  ⟨rfl, rfl⟩

/-- Claim C5, witness: the amended theorem applied at the all-success
environment, an initialized one-device state and the empty caller list. -/
theorem queryAll_result_semantics_witness :
    (NVIDIA.getAllGPUInfo envOK stI []).1 = false ↔
      ((List.range stI.device_count).filter
        (fun i => coreOk envOK i)).map (deviceRecord envOK) = [] :=
  (queryAll_result_semantics envOK stI [] rfl (by decide)).2.2 rfl

/-- Claim C6 (confirmed): the manager retains exactly the backends whose
`initialize` returned true (the AMD and Intel backends never do, so the
retained set is the Nvidia backend or nothing), returns true iff at least
one backend was retained, and when zero backends initialize it returns
false and a subsequent `getAllGPUInfo` appends no records and returns
false. -/
theorem manager_init_retention (env : NVMLEnv) (lst : List GPUInfo) :
    ((Manager.init env ManagerState.mk0).1 = true ↔
      (Manager.init env ManagerState.mk0).2.gpu_monitors ≠ []) ∧
    ((Manager.init env ManagerState.mk0).2.gpu_monitors =
      if (NVIDIA.init env NVIDIAState.mk0).1 then
        [Backend.nvidia (NVIDIA.init env NVIDIAState.mk0).2] else []) ∧
    ((Manager.init env ManagerState.mk0).1 = true ↔
      ((NVIDIA.init env NVIDIAState.mk0).1 = true ∨
        AMD.init = true ∨ Intel.init = true)) ∧
    ((NVIDIA.init env NVIDIAState.mk0).1 = false →
      (Manager.init env ManagerState.mk0).1 = false ∧
      (Manager.init env ManagerState.mk0).2.is_initialized = false ∧
      Manager.getAllGPUInfo env (Manager.init env ManagerState.mk0).2 lst
        = (false, lst)) := by
  by_cases h : (NVIDIA.init env NVIDIAState.mk0).1 = true <;>
    simp [Manager.init, Manager.getAllGPUInfo, ManagerState.mk0,
      AMD.init, Intel.init, h]

/-- Claim C7 (confirmed): `cleanup` on a backend that never successfully
initialized is a total function (no fault) and leaves it Uninitialized —
null library handle, `is_initialized` false, `device_count` 0 — and on
the fresh constructor state it is the identity; the manager's `cleanup`
is callable on any state, always yields the empty uninitialized manager,
and is therefore idempotent. -/
theorem cleanup_safe_idempotent (s : NVIDIAState) (ms : ManagerState) :
    NVIDIA.cleanup NVIDIAState.mk0 = NVIDIAState.mk0 ∧
    (NVIDIA.cleanup s).nvml_lib = false ∧
    (NVIDIA.cleanup s).is_initialized = false ∧
    (NVIDIA.cleanup s).device_count = 0 ∧
    Manager.cleanup ms = ManagerState.mk0 ∧
    Manager.cleanup (Manager.cleanup ms) = Manager.cleanup ms :=
  ⟨rfl, rfl, rfl, rfl, rfl, rfl⟩

/-- Claim C8 (amended): every emitted record's memory fields equal the
fetched byte counts divided by 1,048,576 with integer truncation and then
reduced modulo 2^32 by the cast to `unsigned int`; for byte counts below
2^52 (every realistic device) the cast is the identity and the field is
plain truncating division, and a total of 1,073,741,824 bytes yields
exactly 1024 MB. -/
theorem memory_mb_conversion (env : NVMLEnv) (i : Nat) (g : GPUInfo)
    (h : queryDevice env i = some g) :
    g.memory_total = u32 (u64 (env.memTotal i) / (1024 * 1024)) ∧
    g.memory_used = u32 (u64 (env.memUsed i) / (1024 * 1024)) ∧
    g.memory_free = u32 (u64 (env.memFree i) / (1024 * 1024)) ∧
    (env.memTotal i < 4503599627370496 →
      g.memory_total = env.memTotal i / (1024 * 1024)) ∧
    (env.memTotal i = 1073741824 → g.memory_total = 1024) := by
  rw [queryDevice_eq] at h
  by_cases hc : coreOk env i = true
  · rw [if_pos hc] at h
    obtain rfl := (Option.some.injEq _ _).mp h
    have hbase : (deviceRecord env i).memory_total
        = u32 (u64 (env.memTotal i) / (1024 * 1024)) := rfl
    refine ⟨rfl, rfl, rfl, ?_, ?_⟩
    · intro hb
      have h64 : u64 (env.memTotal i) = env.memTotal i :=
        Nat.mod_eq_of_lt (lt_trans hb (by norm_num))
      have hq : env.memTotal i / (1024 * 1024) < 4294967296 := by
        rw [Nat.div_lt_iff_lt_mul (by norm_num : 0 < 1024 * 1024)]
        calc env.memTotal i < 4503599627370496 := hb
          _ = 4294967296 * (1024 * 1024) := by norm_num
      rw [hbase, h64]
      exact Nat.mod_eq_of_lt hq
    · intro hb
      rw [hbase, hb]
      rfl
  · rw [if_neg hc] at h
    exact absurd h (by simp)

/-- Claim C8, counterexample to the claim as stated: a device reporting
2^52 bytes of memory emits a record whose `memory_total` is 0, not the
integer quotient 2^32 — the `unsigned int` cast wraps, so "memory_total
equals the byte count divided by 1,048,576" fails there. -/
theorem memory_mb_conversion_overflow :
    queryDevice env8 0 = some (deviceRecord env8 0) ∧
    (deviceRecord env8 0).memory_total = 0 ∧
    env8.memTotal 0 / (1024 * 1024) = 4294967296 :=
  ⟨rfl, rfl, by norm_num [env8, envOK]⟩

/-- Claim C8, witness: the amended theorem applied at the all-success
environment whose memory total is 1 GiB. -/
theorem memory_mb_conversion_witness :
    (deviceRecord envOK 0).memory_total = 1024 :=
  (memory_mb_conversion envOK 0 (deviceRecord envOK 0) rfl).2.2.2.2 rfl

/-- Claim C9 (confirmed, with the record's float field idealised as an
exact rational): for every emitted record whose power fetch succeeded
with p milliwatts (p an `unsigned int` value), `power_usage` equals
p / 1000 watts. -/
theorem power_mw_to_watts (env : NVMLEnv) (i : Nat) (g : GPUInfo)
    (h : queryDevice env i = some g) (hp : env.powerRet i = 0)
    (hb : env.powerVal i < 4294967296) :
    g.power_usage = (env.powerVal i : ℚ) / 1000 := by
  rw [queryDevice_eq] at h
  by_cases hc : coreOk env i = true
  · rw [if_pos hc] at h
    obtain rfl := (Option.some.injEq _ _).mp h
    have hu : u32 (env.powerVal i) = env.powerVal i := Nat.mod_eq_of_lt hb
    simp [deviceRecord, hp, hu]
  · rw [if_neg hc] at h
    exact absurd h (by simp)

/-- Claim C9, witness: 125,000 milliwatts yields exactly 125 W. -/
theorem power_mw_to_watts_witness :
    (deviceRecord envOK 0).power_usage = (envOK.powerVal 0 : ℚ) / 1000 ∧
    (deviceRecord envOK 0).power_usage = 125 :=
  ⟨power_mw_to_watts envOK 0 (deviceRecord envOK 0) rfl rfl (by decide),
   by norm_num [deviceRecord, envOK, u32]⟩

/-- Claim C10 (amended): both the backend's and the manager's
`getAllGPUInfo` append to the caller-supplied list without clearing it —
every pre-existing element is preserved in place ahead of the newly
emitted records — and whenever the function's initialization guard passes
(backend: `is_initialized` with non-zero `device_count`; manager:
`is_initialized`) the boolean result equals the final list's
non-emptiness, so it can be true even when the call produced zero new
records; when the guard fails the result is false regardless of the
list. -/
theorem append_frame_effect (env : NVMLEnv) (s : NVIDIAState)
    (ms : ManagerState) (lst : List GPUInfo) :
    (∃ t, (NVIDIA.getAllGPUInfo env s lst).2 = lst ++ t) ∧
    (s.is_initialized = true → s.device_count ≠ 0 →
      ((NVIDIA.getAllGPUInfo env s lst).1 = true ↔
        (NVIDIA.getAllGPUInfo env s lst).2 ≠ [])) ∧
    (∃ t, (Manager.getAllGPUInfo env ms lst).2 = lst ++ t) ∧
    (ms.is_initialized = true →
      ((Manager.getAllGPUInfo env ms lst).1 = true ↔
        (Manager.getAllGPUInfo env ms lst).2 ≠ [])) := by
  refine ⟨?_, ?_, ?_, ?_⟩
  · by_cases hg : (!s.is_initialized || s.device_count == 0) = true
    · exact ⟨[], by simp [NVIDIA.getAllGPUInfo, hg]⟩
    · refine ⟨(List.range s.device_count).filterMap (queryDevice env), ?_⟩
      have hmain : NVIDIA.getAllGPUInfo env s lst =
          (!(lst ++ (List.range s.device_count).filterMap (queryDevice env)).isEmpty,
            lst ++ (List.range s.device_count).filterMap (queryDevice env)) := by
        unfold NVIDIA.getAllGPUInfo
        rw [Bool.of_not_eq_true hg]
        rfl
      rw [hmain]
  · intro hinit hc
    have hguard : (!s.is_initialized || s.device_count == 0) = false := by
      simp [hinit, hc]
    have hmain : NVIDIA.getAllGPUInfo env s lst =
        (!(lst ++ (List.range s.device_count).filterMap (queryDevice env)).isEmpty,
          lst ++ (List.range s.device_count).filterMap (queryDevice env)) := by
      unfold NVIDIA.getAllGPUInfo
      rw [hguard]
      rfl
    rw [hmain]
    simp [List.isEmpty_iff]
  · by_cases hg : ms.is_initialized = true
    · obtain ⟨t, ht⟩ := manager_fold_prefix env ms.gpu_monitors lst
      refine ⟨t, ?_⟩
      simp only [Manager.getAllGPUInfo, hg, Bool.not_true]
      rw [if_neg (by simp)]
      exact ht
    · refine ⟨[], ?_⟩
      have hg2 : ms.is_initialized = false := by
        cases hb : ms.is_initialized
        · rfl
        · exact absurd hb hg
      simp [Manager.getAllGPUInfo, hg2]
  · intro hg
    obtain ⟨t, ht⟩ := manager_fold_prefix env ms.gpu_monitors lst
    have hmain : Manager.getAllGPUInfo env ms lst =
        (!(lst ++ t).isEmpty, lst ++ t) := by
      unfold Manager.getAllGPUInfo
      rw [hg]
      simp only [Bool.not_true]
      rw [if_neg (by simp)]
      rw [ht]
    rw [hmain]
    simp [List.isEmpty_iff]

/-- Claim C10, counterexample to the claim as stated: on an uninitialized
backend or manager the boolean result is false even though the
caller-supplied (and hence final) list is non-empty, so the result is not
computed from the final list's non-emptiness unconditionally. -/
theorem result_not_from_final_list_when_uninitialized :
    NVIDIA.getAllGPUInfo envOK NVIDIAState.mk0 [gW] = (false, [gW]) ∧
    Manager.getAllGPUInfo envOK ManagerState.mk0 [gW] = (false, [gW]) ∧
    ([gW] : List GPUInfo) ≠ [] :=
  ⟨rfl, rfl, by simp⟩

/-- Claim C10, witness: the amended theorem applied at an initialized
one-device state whose sweep emits nothing and a pre-populated list — the
result is true although zero new records were produced. -/
theorem append_frame_effect_witness :
    (NVIDIA.getAllGPUInfo envF stI [gW]).1 = true ↔
      (NVIDIA.getAllGPUInfo envF stI [gW]).2 ≠ [] :=
  ((append_frame_effect envF stI ManagerState.mk0 [gW]).2.1) rfl (by decide)
